import Mathlib

/-
Verification of the quobyte volume lifecycle driver
(src/quobyte/quobyte.go of johscheuer/convoy).

The driver logic (Init, CreateVolume, DeleteVolume, MountVolume,
UmountVolume, MountPoint, GetVolumeInfo, ListVolume, remountVolumes) is
embedded directly from the Go source.  The repository helpers it calls
that live outside src/ (the util.Object* persistent record store,
util.ListConfigIDs, util.VolumeMount / util.VolumeUmount, registry
address validation) and the external capabilities (quobyte_api client)
are modelled from the specification: the store is a key-to-record
association list (spec section 4.1), the remote client and the mount
executor are oracle records (spec section 1).

Every operation returns its result, the post-state of the store, and a
trace of observable events: acquiring and releasing the manager-wide
exclusive lock, remote provisioning and deprovisioning calls, and mount
and unmount executor calls.
-/

deriving instance DecidableEq for Except

namespace Convoy

/-- DRIVER_NAME constant of the source. -/
def DRIVER_NAME : String := "quobyte"

/-- DRIVER_CONFIG_FILE constant of the source. -/
def DRIVER_CONFIG_FILE : String := "quobyte.cfg"

/-- VOLUME_CFG_PREFIX constant of the source (named volume_). -/
def volumeCfgPre : String := "volume_"

/-- CFG_PREFIX constant of the source (driver name plus underscore). -/
def cfgPre : String := DRIVER_NAME ++ "_"

/-- CFG_POSTFIX constant of the source (the .json suffix). -/
def cfgPost : String := ".json"

/-- Bootstrap configuration key quobyte.apiurl. -/
def QUOBYTE_API_URL : String := "quobyte.apiurl"

/-- Bootstrap configuration key quobyte.registries. -/
def QUOBYTE_REGISTRIES : String := "quobyte.registries"

/-- Bootstrap configuration key quobyte.defaultuser. -/
def QUOBYTE_DEFAULT_USER : String := "quobyte.defaultuser"

/-- Bootstrap configuration key quobyte.defaultgroup. -/
def QUOBYTE_DEFAULT_GROUP : String := "quobyte.defaultgroup"

/-- Bootstrap configuration key quobyte.defaultvolumeconfig. -/
def QUOBYTE_DEFAULT_VOLUME_CONFIG : String := "quobyte.defaultvolumeconfig"

/-- Modelled from the spec: the request option key controlling delete
semantics (OPT_REFERENCE_ONLY of the plugin framework, outside src/). -/
def OPT_REFERENCE_ONLY : String := "reference-only"

/-- Modelled from the spec: the request option key carrying the mount
point hint (OPT_MOUNT_POINT of the plugin framework, outside src/). -/
def OPT_MOUNT_POINT : String := "mount-point"

/-- Modelled from the spec: the info key naming the volume
(OPT_VOLUME_NAME of the plugin framework, outside src/). -/
def OPT_VOLUME_NAME : String := "volume-name"

/-- The Device structure of the source: the manager configuration. -/
structure Device where
  Root : String
  Registries : String
  User : String
  Group : String
  VolumeConfig : String
  DefaultVolumeSize : Int
deriving DecidableEq, Repr

/-- The QuobyteVolume structure of the source: one volume record.
configPath is unexported in Go and therefore not serialized. -/
structure QuobyteVolume where
  Name : String
  ID : String
  MountPoint : String
  configPath : String
  User : String
  Group : String
  Device : String
  Config : String
deriving DecidableEq, Repr

/-- Device.ConfigFile of the source. -/
def Device.configFile (dev : Device) : Except String String :=
  if dev.Root = "" then .error ("BUG: Invalid empty device config path")
  else .ok (dev.Root ++ "/" ++ DRIVER_CONFIG_FILE)

/-- QuobyteVolume.ConfigFile of the source. -/
def QuobyteVolume.configFile (v : QuobyteVolume) : Except String String :=
  if v.Name = "" then .error ("empty volume")
  else if v.configPath = "" then .error ("empty config path")
  else .ok (v.configPath ++ "/" ++ cfgPre ++ volumeCfgPre ++ v.Name ++ cfgPost)

/-- Modelled from the spec: the Persistent Record Store state for volume
records (spec section 4.1).  Records are keyed by volume name (the file
name scheme is a fixed bijection prefix plus name plus suffix); a value
of none models a present but corrupt record. -/
abbrev Store := List (String × Option QuobyteVolume)

/-- Lookup of a key in the store (first matching entry). -/
def storeFind : Store → String → Option (Option QuobyteVolume)
  | [], _ => none
  | (k', w) :: rest, k => if k' = k then some w else storeFind rest k

/-- Modelled from the spec: Save replaces the record under the key, or
appends it when absent (crash-consistent whole-record write). -/
def storeSave : Store → String → QuobyteVolume → Store
  | [], k, v => [(k, some v)]
  | (k', w) :: rest, k, v =>
    if k' = k then (k, some v) :: rest else (k', w) :: storeSave rest k v

/-- Modelled from the spec: Delete removes the record under the key. -/
def storeDelete : Store → String → Store
  | [], _ => []
  | (k', w) :: rest, k => if k' = k then rest else (k', w) :: storeDelete rest k

/-- Modelled from the spec: util.ListConfigIDs enumerates exactly the
keys of the volume records (ListKeys of spec section 4.1). -/
def listConfigIDs (s : Store) : List String := s.map Prod.fst

/-- Modelled from the spec: util.ObjectExists checks the record file
name (failing on an invalid name) and then presence of the key. -/
def objectExists (s : Store) (v : QuobyteVolume) : Except String Bool :=
  match v.configFile with
  | .error e => .error e
  | .ok _ => .ok ((storeFind s v.Name).isSome)

/-- Modelled from the spec: util.ObjectLoad reads the record under the
key into the receiver.  The unexported configPath field is not
serialized, so the loaded record keeps the receiver's configPath. -/
def objectLoad (s : Store) (v : QuobyteVolume) : Except String QuobyteVolume :=
  match v.configFile with
  | .error e => .error e
  | .ok _ =>
    match storeFind s v.Name with
    | none => .error ("cannot find object " ++ v.Name)
    | some none => .error ("corrupt record " ++ v.Name)
    | some (some r) => .ok { r with configPath := v.configPath }

/-- Modelled from the spec: util.ObjectSave persists the record under
its own key (failing on an invalid name). -/
def objectSave (s : Store) (v : QuobyteVolume) : Except String Store :=
  match v.configFile with
  | .error e => .error e
  | .ok _ => .ok (storeSave s v.Name v)

/-- Modelled from the spec: util.ObjectDelete removes the record under
its own key (failing on an invalid name). -/
def objectDelete (s : Store) (v : QuobyteVolume) : Except String Store :=
  match v.configFile with
  | .error e => .error e
  | .ok _ => .ok (storeDelete s v.Name)

/-- Modelled from the spec: the Remote Volume Client capability,
CreateRemoteVolume(name, owner, group, config) yielding a remote id or
an error, and DeleteRemoteVolume(remoteID). -/
structure RemoteClient where
  createVolume : String → String → String → String → Except String String
  deleteVolume : String → Except String Unit

/-- Modelled from the spec: the Mount Executor capability,
Mount(volume, targetPathHint) yielding the mount point or an error
(util.VolumeMount), and Unmount(volume) (util.VolumeUmount). -/
structure MountExec where
  volumeMount : QuobyteVolume → String → Except String String
  volumeUmount : QuobyteVolume → Except String Unit

/-- An inbound request: a volume name and string options. -/
structure Request where
  Name : String
  Options : List (String × String)

/-- Observable events of one operation: taking and releasing the
manager-wide exclusive lock, remote client calls, mount executor calls. -/
inductive Event where
  | lockAcquire : Event
  | lockRelease : Event
  | remoteCreate : String → Event
  | remoteDelete : String → Event
  | mountExec : QuobyteVolume → String → Event
  | unmountExec : QuobyteVolume → Event
deriving DecidableEq, Repr

/-- Result of one driver operation: the returned value or error, the
post-state of the volume record store, and the event trace. -/
structure OpRes (α : Type) where
  result : Except String α
  store : Store
  trace : List Event

/-- Modelled from the spec: Go map indexing with a missing key yields
the zero value, the empty string. -/
def getOpt (opts : List (String × String)) (k : String) : String :=
  match opts.lookup k with
  | some v => v
  | none => ""

/-- Modelled from the spec: Go map indexing with an explicit default for
an absent key (the comma-ok presence test of the source). -/
def getOptD (opts : List (String × String)) (k : String) (dflt : String) : String :=
  match opts.lookup k with
  | some v => v
  | none => dflt

/-- Modelled from the spec: strconv.ParseBool accepts exactly the
strings 1, t, T, TRUE, true, True, 0, f, F, FALSE, false, False and
fails on anything else. -/
def goParseBool (s : String) : Except String Bool :=
  if s = "1" ∨ s = "t" ∨ s = "T" ∨ s = "TRUE" ∨ s = "true" ∨ s = "True" then .ok true
  else if s = "0" ∨ s = "f" ∨ s = "F" ∨ s = "FALSE" ∨ s = "false" ∨ s = "False" then .ok false
  else .error ("invalid syntax")

/-- Whether an Except value is a success. -/
def okB {α : Type} : Except String α → Bool
  | .ok _ => true
  | .error _ => false

/-- Driver.blankVolume of the source. -/
def blankVolume (d : Device) (name : String) : QuobyteVolume :=
  { Name := name
    ID := ""
    MountPoint := ""
    configPath := d.Root
    User := ""
    Group := ""
    Device := ""
    Config := "" }

/-- Driver.CreateVolume of the source: under the exclusive lock, fail
if the record exists, otherwise provision remotely with the manager
defaults and persist the new record. -/
def createVolume (d : Device) (remote : RemoteClient) (s : Store) (req : Request) :
    OpRes Unit :=
  let id := req.Name
  let vol := blankVolume d id
  match objectExists s vol with
  | .error e => ⟨.error e, s, [.lockAcquire, .lockRelease]⟩
  | .ok true =>
    ⟨.error ("volume " ++ id ++ " already exists"), s, [.lockAcquire, .lockRelease]⟩
  | .ok false =>
    match remote.createVolume id d.User d.Group d.VolumeConfig with
    | .error e => ⟨.error e, s, [.lockAcquire, .remoteCreate id, .lockRelease]⟩
    | .ok volume_uuid =>
      let vol2 := { vol with
                    Name := id
                    ID := volume_uuid
                    User := d.User
                    Group := d.Group
                    Config := d.VolumeConfig
                    Device := id }
      match objectSave s vol2 with
      | .error e => ⟨.error e, s, [.lockAcquire, .remoteCreate id, .lockRelease]⟩
      | .ok s2 => ⟨.ok (), s2, [.lockAcquire, .remoteCreate id, .lockRelease]⟩

/-- Driver.DeleteVolume of the source: under the exclusive lock, load
the record, refuse while mounted, deprovision remotely unless the
reference-only option parses to true (a parse error is discarded and
counts as false), then remove the record. -/
def deleteVolume (d : Device) (remote : RemoteClient) (s : Store) (req : Request) :
    OpRes Unit :=
  let id := req.Name
  let opts := req.Options
  match objectLoad s (blankVolume d id) with
  | .error e => ⟨.error e, s, [.lockAcquire, .lockRelease]⟩
  | .ok volume =>
    if volume.MountPoint ≠ "" then
      ⟨.error ("Cannot delete volume " ++ id ++ ". It is still mounted"), s,
        [.lockAcquire, .lockRelease]⟩
    else
      let referenceOnly := (goParseBool (getOpt opts OPT_REFERENCE_ONLY)).toOption.getD false
      if referenceOnly then
        match objectDelete s volume with
        | .error e => ⟨.error e, s, [.lockAcquire, .lockRelease]⟩
        | .ok s2 => ⟨.ok (), s2, [.lockAcquire, .lockRelease]⟩
      else
        match remote.deleteVolume volume.ID with
        | .error e => ⟨.error e, s, [.lockAcquire, .remoteDelete volume.ID, .lockRelease]⟩
        | .ok _ =>
          match objectDelete s volume with
          | .error e => ⟨.error e, s, [.lockAcquire, .remoteDelete volume.ID, .lockRelease]⟩
          | .ok s2 => ⟨.ok (), s2, [.lockAcquire, .remoteDelete volume.ID, .lockRelease]⟩

/-- Driver.MountVolume of the source: under the exclusive lock, load the
record, invoke the mount executor with the mount point hint, record the
returned mount point and persist the record. -/
def mountVolume (d : Device) (me : MountExec) (s : Store) (req : Request) :
    OpRes String :=
  let id := req.Name
  let opts := req.Options
  match objectLoad s (blankVolume d id) with
  | .error e => ⟨.error e, s, [.lockAcquire, .lockRelease]⟩
  | .ok vol =>
    let hint := getOpt opts OPT_MOUNT_POINT
    match me.volumeMount vol hint with
    | .error e => ⟨.error e, s, [.lockAcquire, .mountExec vol hint, .lockRelease]⟩
    | .ok mountPoint =>
      let vol2 := { vol with MountPoint := mountPoint }
      match objectSave s vol2 with
      | .error e => ⟨.error e, s, [.lockAcquire, .mountExec vol hint, .lockRelease]⟩
      | .ok s2 => ⟨.ok mountPoint, s2, [.lockAcquire, .mountExec vol hint, .lockRelease]⟩

/-- Driver.UmountVolume of the source: under the exclusive lock, load
the record, invoke the unmount executor, persist the record with the
mount point cleared (util.VolumeUmount clears it on success). -/
def umountVolume (d : Device) (me : MountExec) (s : Store) (req : Request) :
    OpRes Unit :=
  match objectLoad s (blankVolume d req.Name) with
  | .error e => ⟨.error e, s, [.lockAcquire, .lockRelease]⟩
  | .ok vol =>
    match me.volumeUmount vol with
    | .error e => ⟨.error e, s, [.lockAcquire, .unmountExec vol, .lockRelease]⟩
    | .ok _ =>
      let vol2 := { vol with MountPoint := "" }
      match objectSave s vol2 with
      | .error e => ⟨.error e, s, [.lockAcquire, .unmountExec vol, .lockRelease]⟩
      | .ok s2 => ⟨.ok (), s2, [.lockAcquire, .unmountExec vol, .lockRelease]⟩

/-- Driver.MountPoint of the source: load the record and return its
mount point, without taking the lock. -/
def mountPointOp (d : Device) (s : Store) (req : Request) : OpRes String :=
  match objectLoad s (blankVolume d req.Name) with
  | .error e => ⟨.error e, s, []⟩
  | .ok vol => ⟨.ok vol.MountPoint, s, []⟩

/-- Driver.GetVolumeInfo of the source: under the exclusive lock, load
the record and project its mount point, remote id and name. -/
def getVolumeInfo (d : Device) (s : Store) (name : String) :
    OpRes (List (String × String)) :=
  match objectLoad s (blankVolume d name) with
  | .error e => ⟨.error e, s, [.lockAcquire, .lockRelease]⟩
  | .ok vol =>
    ⟨.ok [("MountPoint", vol.MountPoint), ("ID", vol.ID), (OPT_VOLUME_NAME, name)],
      s, [.lockAcquire, .lockRelease]⟩

/-- Loop of Driver.ListVolume of the source: GetVolumeInfo applied to
every listed id, failing the whole call on the first failure. -/
def listVolumeLoop (d : Device) (s : Store) :
    List String → OpRes (List (String × List (String × String)))
  | [] => ⟨.ok [], s, []⟩
  | id :: rest =>
    let r := getVolumeInfo d s id
    match r.result with
    | .error e => ⟨.error e, s, r.trace⟩
    | .ok info =>
      let rr := listVolumeLoop d s rest
      match rr.result with
      | .error e => ⟨.error e, s, r.trace ++ rr.trace⟩
      | .ok tailInfo => ⟨.ok ((id, info) :: tailInfo), s, r.trace ++ rr.trace⟩

/-- Driver.ListVolume of the source: enumerate all volume records and
collect GetVolumeInfo for each; no lock of its own. -/
def listVolume (d : Device) (s : Store) : OpRes (List (String × List (String × String))) :=
  listVolumeLoop d s (listConfigIDs s)

/-- Loop of Driver.remountVolumes of the source: for each listed id,
load the record, skip it when unmounted, otherwise call MountVolume for
that name with empty options; any failure aborts. -/
def remountLoop (d : Device) (me : MountExec) :
    List String → Store → List Event → OpRes Unit
  | [], s, tr => ⟨.ok (), s, tr⟩
  | id :: rest, s, tr =>
    match objectLoad s (blankVolume d id) with
    | .error e => ⟨.error e, s, tr⟩
    | .ok vol =>
      if vol.MountPoint = "" then remountLoop d me rest s tr
      else
        let r := mountVolume d me s { Name := id, Options := [] }
        match r.result with
        | .error e => ⟨.error e, r.store, tr ++ r.trace⟩
        | .ok _ => remountLoop d me rest r.store (tr ++ r.trace)

/-- Driver.remountVolumes of the source: startup recovery over all
persisted volume records. -/
def remountVolumes (d : Device) (me : MountExec) (s : Store) : OpRes Unit :=
  remountLoop d me (listConfigIDs s) s []

/-- The whole persisted state at startup: the manager configuration
record (none when absent, some none when corrupt) and the volume
records. -/
structure Disk where
  config : Option (Option Device)
  volumes : Store
deriving Repr

/-- Result of Init: the manager configuration of the running driver or
an error, the post-state of the disk, and the event trace. -/
structure InitRes where
  result : Except String Device
  disk : Disk
  trace : List Event

/-- Tail of Init of the source, after the configuration is loaded or
built: construct the driver and run remountVolumes, failing startup on
its failure.  The source persists nothing here. -/
def initFinish (dev : Device) (me : MountExec) (disk : Disk) : InitRes :=
  let r := remountVolumes dev me disk.volumes
  match r.result with
  | .error e => ⟨.error e, { disk with volumes := r.store }, r.trace⟩
  | .ok _ => ⟨.ok dev, { disk with volumes := r.store }, r.trace⟩

/-- Splitting a character list on commas, accumulating the current
field in reverse. -/
def splitCommaChars : List Char → List Char → List String
  | [], acc => [String.mk acc.reverse]
  | c :: cs, acc =>
    if c = ',' then String.mk acc.reverse :: splitCommaChars cs []
    else splitCommaChars cs (c :: acc)

/-- Splitting the comma-separated registry list of the source
(strings.Split with separator comma). -/
def splitRegistries (s : String) : List String := splitCommaChars s.data []

/-- Init of the source.  When a configuration record exists it is
loaded; otherwise the required bootstrap options are validated, the
optional ones are defaulted, and the Device is built.  Registry address
validation (net.SplitHostPort plus util.ValidNetworkAddr, outside src/)
is modelled from the spec as the validAddr oracle.  Mirroring the
source, the freshly built Device is never written to the store. -/
def init (root : String) (config : List (String × String)) (validAddr : String → Bool)
    (me : MountExec) (disk : Disk) : InitRes :=
  let dev0 : Device :=
    { Root := root
      Registries := ""
      User := ""
      Group := ""
      VolumeConfig := ""
      DefaultVolumeSize := 0 }
  match dev0.configFile with
  | .error e => ⟨.error e, disk, []⟩
  | .ok _ =>
    match disk.config with
    | some none => ⟨.error ("corrupt configuration record"), disk, []⟩
    | some (some dev) => initFinish dev me disk
    | none =>
      if getOpt config QUOBYTE_API_URL = "" then
        ⟨.error ("Missing required parameter: " ++ getOpt config QUOBYTE_API_URL), disk, []⟩
      else if getOpt config QUOBYTE_REGISTRIES = "" then
        ⟨.error ("Missing required parameter: " ++ getOpt config QUOBYTE_REGISTRIES), disk, []⟩
      else
        let registryList := getOpt config QUOBYTE_REGISTRIES
        if (splitRegistries registryList).all validAddr then
          let dev : Device :=
            { Root := root
              Registries := registryList
              User := getOptD config QUOBYTE_DEFAULT_USER ("root")
              Group := getOptD config QUOBYTE_DEFAULT_GROUP ("nfsnobody")
              VolumeConfig := getOptD config QUOBYTE_DEFAULT_VOLUME_CONFIG ("BASE")
              DefaultVolumeSize := 0 }
          initFinish dev me disk
        else ⟨.error ("Invalid or unsolvable address"), disk, []⟩

/-- One entry of the store is well-formed when a present record carries
its own key as its name. -/
def wfEntry (p : String × Option QuobyteVolume) : Bool :=
  match p.2 with
  | none => true
  | some v => v.Name == p.1

/-- Well-formedness of the store: every present record carries its own
key as its name (always true of records written through the driver). -/
def wfStore (s : Store) : Bool :=
  s.all wfEntry

lemma storeFind_storeSave_self (s : Store) (k : String) (v : QuobyteVolume) :
    storeFind (storeSave s k v) k = some (some v) := by
  induction s with
  | nil => simp [storeSave, storeFind]
  | cons p rest ih =>
    obtain ⟨a, w⟩ := p
    by_cases ha : a = k
    · subst ha
      simp [storeSave, storeFind]
    · simp [storeSave, storeFind, ha, ih]

lemma storeFind_storeSave_ne (s : Store) (k k' : String) (v : QuobyteVolume)
    (h : k' ≠ k) :
    storeFind (storeSave s k v) k' = storeFind s k' := by
  induction s with
  | nil => simp [storeSave, storeFind, h.symm]
  | cons p rest ih =>
    obtain ⟨a, w⟩ := p
    by_cases ha : a = k
    · subst ha
      simp [storeSave, storeFind, h.symm]
    · simp [storeSave, storeFind, ha, ih]

lemma listConfigIDs_storeSave :
    ∀ (s : Store) (k : String) (v : QuobyteVolume),
      (storeFind s k).isSome = true →
      listConfigIDs (storeSave s k v) = listConfigIDs s
  | [], k, v, hk => by simp [storeFind] at hk
  | (a, w) :: rest, k, v, hk => by
    by_cases ha : a = k
    · subst ha
      simp [storeSave, listConfigIDs]
    · have hk' : (storeFind rest k).isSome = true := by
        simpa [storeFind, ha] using hk
      have ih := listConfigIDs_storeSave rest k v hk'
      simp [storeSave, ha, listConfigIDs] at ih ⊢
      exact ih

lemma storeFind_none_of_not_mem :
    ∀ (s : Store) (k : String), k ∉ listConfigIDs s → storeFind s k = none
  | [], _, _ => rfl
  | (a, w) :: rest, k, h => by
    have ha : a ≠ k := by
      intro hh
      exact h (by simp [listConfigIDs, hh])
    have h' : k ∉ listConfigIDs rest := by
      intro hh
      exact h (by simp [listConfigIDs]; exact Or.inr (by simpa [listConfigIDs] using hh))
    simp [storeFind, ha, storeFind_none_of_not_mem rest k h']

lemma mem_listConfigIDs_of_find :
    ∀ (s : Store) (k : String) (w : Option QuobyteVolume),
      storeFind s k = some w → k ∈ listConfigIDs s
  | [], _, _, h => by simp [storeFind] at h
  | (a, v) :: rest, k, w, h => by
    by_cases ha : a = k
    · simp [listConfigIDs, ha]
    · have hm := mem_listConfigIDs_of_find rest k w (by simpa [storeFind, ha] using h)
      simp [listConfigIDs] at hm ⊢
      exact Or.inr hm

lemma storeFind_storeDelete_self :
    ∀ (s : Store) (k : String), (listConfigIDs s).Nodup →
      storeFind (storeDelete s k) k = none
  | [], _, _ => rfl
  | (a, w) :: rest, k, hnd => by
    have hnd0 : (a :: listConfigIDs rest).Nodup := by simpa [listConfigIDs] using hnd
    have hanr : a ∉ listConfigIDs rest := (List.nodup_cons.mp hnd0).1
    have hnd' : (listConfigIDs rest).Nodup := (List.nodup_cons.mp hnd0).2
    by_cases ha : a = k
    · subst ha
      simp [storeDelete, storeFind_none_of_not_mem rest a hanr]
    · simp [storeDelete, ha, storeFind, storeFind_storeDelete_self rest k hnd']

lemma wf_name_of_find :
    ∀ (s : Store) (k : String) (v : QuobyteVolume),
      wfStore s = true → storeFind s k = some (some v) → v.Name = k
  | [], _, _, _, h => by simp [storeFind] at h
  | (a, w) :: rest, k, v, hwf, h => by
    have hwf' : wfEntry (a, w) = true ∧ wfStore rest = true := by
      simpa [wfStore, List.all_cons, Bool.and_eq_true] using hwf
    by_cases ha : a = k
    · subst ha
      have hw : w = some v := by simpa [storeFind] using h
      subst hw
      have hv := hwf'.1
      simp [wfEntry] at hv
      exact hv
    · exact wf_name_of_find rest k v hwf'.2 (by simpa [storeFind, ha] using h)

lemma wfStore_storeSave :
    ∀ (s : Store) (k : String) (v : QuobyteVolume),
      wfStore s = true → v.Name = k → wfStore (storeSave s k v) = true
  | [], k, v, _, hv => by simp [storeSave, wfStore, wfEntry, hv]
  | (a, w) :: rest, k, v, hwf, hv => by
    have hwf' : wfEntry (a, w) = true ∧ wfStore rest = true := by
      simpa [wfStore, List.all_cons, Bool.and_eq_true] using hwf
    by_cases ha : a = k
    · subst ha
      simp [storeSave, wfStore, List.all_cons, wfEntry, hv]
      simpa [wfStore] using hwf'.2
    · have ih := wfStore_storeSave rest k v hwf'.2 hv
      simp [storeSave, ha, wfStore, List.all_cons, Bool.and_eq_true] at ih ⊢
      exact ⟨hwf'.1, ih⟩

lemma objectExists_ok_names (s : Store) (v : QuobyteVolume) (b : Bool)
    (h : objectExists s v = .ok b) : v.Name ≠ "" ∧ v.configPath ≠ "" := by
  unfold objectExists at h
  cases hc : v.configFile with
  | error e => rw [hc] at h; cases h
  | ok p =>
    unfold QuobyteVolume.configFile at hc
    by_cases h1 : v.Name = ""
    · simp [h1] at hc
    · by_cases h2 : v.configPath = ""
      · simp [h1, h2] at hc
      · exact ⟨h1, h2⟩

lemma objectExists_ok_find (s : Store) (v : QuobyteVolume) (b : Bool)
    (h : objectExists s v = .ok b) : (storeFind s v.Name).isSome = b := by
  unfold objectExists at h
  cases hc : v.configFile with
  | error e => rw [hc] at h; cases h
  | ok p =>
    rw [hc] at h
    exact Except.ok.inj h

lemma objectExists_of_parts (s : Store) (v : QuobyteVolume)
    (h1 : v.Name ≠ "") (h2 : v.configPath ≠ "") :
    objectExists s v = .ok ((storeFind s v.Name).isSome) := by
  unfold objectExists QuobyteVolume.configFile
  simp [h1, h2]

lemma objectLoad_of_find (s : Store) (bv r : QuobyteVolume)
    (h1 : bv.Name ≠ "") (h2 : bv.configPath ≠ "")
    (h : storeFind s bv.Name = some (some r)) :
    objectLoad s bv = .ok { r with configPath := bv.configPath } := by
  unfold objectLoad QuobyteVolume.configFile
  simp [h1, h2, h]

lemma objectLoad_ok_spec (s : Store) (bv vol : QuobyteVolume)
    (h : objectLoad s bv = .ok vol) :
    ∃ r, storeFind s bv.Name = some (some r)
      ∧ vol = { r with configPath := bv.configPath }
      ∧ bv.Name ≠ "" ∧ bv.configPath ≠ "" := by
  unfold objectLoad at h
  cases hc : bv.configFile with
  | error e => rw [hc] at h; cases h
  | ok p =>
    rw [hc] at h
    have hnames : bv.Name ≠ "" ∧ bv.configPath ≠ "" := by
      unfold QuobyteVolume.configFile at hc
      by_cases h1 : bv.Name = ""
      · simp [h1] at hc
      · by_cases h2 : bv.configPath = ""
        · simp [h1, h2] at hc
        · exact ⟨h1, h2⟩
    cases hf : storeFind s bv.Name with
    | none => rw [hf] at h; cases h
    | some w =>
      cases w with
      | none => rw [hf] at h; cases h
      | some r =>
        rw [hf] at h
        exact ⟨r, rfl, (Except.ok.inj h).symm, hnames⟩

lemma objectSave_ok_spec (s s2 : Store) (v : QuobyteVolume)
    (h : objectSave s v = .ok s2) : s2 = storeSave s v.Name v := by
  unfold objectSave at h
  cases hc : v.configFile with
  | error e => rw [hc] at h; cases h
  | ok p =>
    rw [hc] at h
    exact (Except.ok.inj h).symm

lemma objectSave_of_parts (s : Store) (v : QuobyteVolume)
    (h1 : v.Name ≠ "") (h2 : v.configPath ≠ "") :
    objectSave s v = .ok (storeSave s v.Name v) := by
  unfold objectSave QuobyteVolume.configFile
  simp [h1, h2]

lemma objectDelete_of_parts (s : Store) (v : QuobyteVolume)
    (h1 : v.Name ≠ "") (h2 : v.configPath ≠ "") :
    objectDelete s v = .ok (storeDelete s v.Name) := by
  unfold objectDelete QuobyteVolume.configFile
  simp [h1, h2]

/-- The record CreateVolume persists on success: mount point empty,
remote identifier the returned id, device identifier the volume name,
manager defaults for owner, group and configuration template. -/
def createdRecord (d : Device) (id uuid : String) : QuobyteVolume :=
  { Name := id
    ID := uuid
    MountPoint := ""
    configPath := d.Root
    User := d.User
    Group := d.Group
    Device := id
    Config := d.VolumeConfig }

lemma createVolume_exists_eq (d : Device) (remote : RemoteClient) (s : Store)
    (req : Request)
    (hex : objectExists s (blankVolume d req.Name) = .ok true) :
    createVolume d remote s req =
      ⟨.error ("volume " ++ req.Name ++ " already exists"), s,
        [Event.lockAcquire, Event.lockRelease]⟩ := by
  simp [createVolume, hex]

lemma createVolume_remote_error_eq (d : Device) (remote : RemoteClient) (s : Store)
    (req : Request) (e : String)
    (hex : objectExists s (blankVolume d req.Name) = .ok false)
    (hrc : remote.createVolume req.Name d.User d.Group d.VolumeConfig = .error e) :
    createVolume d remote s req =
      ⟨.error e, s,
        [Event.lockAcquire, Event.remoteCreate req.Name, Event.lockRelease]⟩ := by
  simp [createVolume, hex, hrc]

lemma createVolume_ok_eq (d : Device) (remote : RemoteClient) (s : Store)
    (req : Request) (uuid : String)
    (hex : objectExists s (blankVolume d req.Name) = .ok false)
    (hrc : remote.createVolume req.Name d.User d.Group d.VolumeConfig = .ok uuid) :
    createVolume d remote s req =
      ⟨.ok (), storeSave s req.Name (createdRecord d req.Name uuid),
        [Event.lockAcquire, Event.remoteCreate req.Name, Event.lockRelease]⟩ := by
  obtain ⟨h1, h2⟩ := objectExists_ok_names s (blankVolume d req.Name) false hex
  have h1' : req.Name ≠ "" := h1
  have h2' : d.Root ≠ "" := h2
  have hex' := hex
  simp only [blankVolume] at hex'
  simp [createVolume, blankVolume, hex', hrc, objectSave, QuobyteVolume.configFile,
    createdRecord, h1', h2']

lemma deleteVolume_load_error_eq (d : Device) (remote : RemoteClient) (s : Store)
    (req : Request) (e : String)
    (h : objectLoad s (blankVolume d req.Name) = .error e) :
    deleteVolume d remote s req = ⟨.error e, s, [Event.lockAcquire, Event.lockRelease]⟩ := by
  simp [deleteVolume, h]

lemma deleteVolume_mounted_eq (d : Device) (remote : RemoteClient) (s : Store)
    (req : Request) (vol : QuobyteVolume)
    (hload : objectLoad s (blankVolume d req.Name) = .ok vol)
    (hm : vol.MountPoint ≠ "") :
    deleteVolume d remote s req =
      ⟨.error ("Cannot delete volume " ++ req.Name ++ ". It is still mounted"), s,
        [Event.lockAcquire, Event.lockRelease]⟩ := by
  simp [deleteVolume, hload, hm]

lemma deleteVolume_refonly_eq (d : Device) (remote : RemoteClient) (s : Store)
    (req : Request) (vol : QuobyteVolume)
    (hload : objectLoad s (blankVolume d req.Name) = .ok vol)
    (hum : vol.MountPoint = "")
    (href : (goParseBool (getOpt req.Options OPT_REFERENCE_ONLY)).toOption.getD false = true)
    (hn : vol.Name ≠ "") (hp : vol.configPath ≠ "") :
    deleteVolume d remote s req =
      ⟨.ok (), storeDelete s vol.Name, [Event.lockAcquire, Event.lockRelease]⟩ := by
  simp [deleteVolume, hload, hum, href, objectDelete_of_parts s vol hn hp]

lemma deleteVolume_notref_trace (d : Device) (remote : RemoteClient) (s : Store)
    (req : Request) (vol : QuobyteVolume)
    (hload : objectLoad s (blankVolume d req.Name) = .ok vol)
    (hum : vol.MountPoint = "")
    (href : (goParseBool (getOpt req.Options OPT_REFERENCE_ONLY)).toOption.getD false = false) :
    (deleteVolume d remote s req).trace
      = [Event.lockAcquire, Event.remoteDelete vol.ID, Event.lockRelease] := by
  cases hrd : remote.deleteVolume vol.ID with
  | error e => simp [deleteVolume, hload, hum, href, hrd]
  | ok u =>
    cases hdel : objectDelete s vol with
    | error e => simp [deleteVolume, hload, hum, href, hrd, hdel]
    | ok s2 => simp [deleteVolume, hload, hum, href, hrd, hdel]

lemma mountVolume_load_error_eq (d : Device) (me : MountExec) (s : Store)
    (req : Request) (e : String)
    (h : objectLoad s (blankVolume d req.Name) = .error e) :
    mountVolume d me s req = ⟨.error e, s, [Event.lockAcquire, Event.lockRelease]⟩ := by
  simp [mountVolume, h]

lemma mountVolume_mount_error_eq (d : Device) (me : MountExec) (s : Store)
    (req : Request) (vol : QuobyteVolume) (e : String)
    (hload : objectLoad s (blankVolume d req.Name) = .ok vol)
    (hm : me.volumeMount vol (getOpt req.Options OPT_MOUNT_POINT) = .error e) :
    mountVolume d me s req =
      ⟨.error e, s,
        [Event.lockAcquire, Event.mountExec vol (getOpt req.Options OPT_MOUNT_POINT),
         Event.lockRelease]⟩ := by
  simp [mountVolume, hload, hm]

lemma mountVolume_ok_eq (d : Device) (me : MountExec) (s : Store)
    (req : Request) (vol : QuobyteVolume) (p : String)
    (hload : objectLoad s (blankVolume d req.Name) = .ok vol)
    (hm : me.volumeMount vol (getOpt req.Options OPT_MOUNT_POINT) = .ok p)
    (hn : vol.Name ≠ "") :
    mountVolume d me s req =
      ⟨.ok p, storeSave s vol.Name { vol with MountPoint := p },
        [Event.lockAcquire, Event.mountExec vol (getOpt req.Options OPT_MOUNT_POINT),
         Event.lockRelease]⟩ := by
  obtain ⟨r, hf, hv, h1, h2⟩ := objectLoad_ok_spec s (blankVolume d req.Name) vol hload
  have hp : vol.configPath ≠ "" := by
    rw [hv]
    exact h2
  have hsv := objectSave_of_parts s { vol with MountPoint := p } hn hp
  simp [mountVolume, hload, hm, hsv]

lemma umountVolume_load_error_eq (d : Device) (me : MountExec) (s : Store)
    (req : Request) (e : String)
    (h : objectLoad s (blankVolume d req.Name) = .error e) :
    umountVolume d me s req = ⟨.error e, s, [Event.lockAcquire, Event.lockRelease]⟩ := by
  simp [umountVolume, h]

lemma umountVolume_ok_eq (d : Device) (me : MountExec) (s : Store)
    (req : Request) (vol : QuobyteVolume)
    (hload : objectLoad s (blankVolume d req.Name) = .ok vol)
    (hu : me.volumeUmount vol = .ok ())
    (hn : vol.Name ≠ "") :
    umountVolume d me s req =
      ⟨.ok (), storeSave s vol.Name { vol with MountPoint := "" },
        [Event.lockAcquire, Event.unmountExec vol, Event.lockRelease]⟩ := by
  obtain ⟨r, hf, hv, h1, h2⟩ := objectLoad_ok_spec s (blankVolume d req.Name) vol hload
  have hp : vol.configPath ≠ "" := by
    rw [hv]
    exact h2
  have hsv := objectSave_of_parts s { vol with MountPoint := "" } hn hp
  simp [umountVolume, hload, hu, hsv]

lemma getVolumeInfo_of_record (d : Device) (s : Store) (name : String)
    (r : QuobyteVolume)
    (hn : name ≠ "") (hr : d.Root ≠ "")
    (h : storeFind s name = some (some r)) :
    getVolumeInfo d s name =
      ⟨.ok [("MountPoint", r.MountPoint), ("ID", r.ID), (OPT_VOLUME_NAME, name)], s,
        [Event.lockAcquire, Event.lockRelease]⟩ := by
  have hload := objectLoad_of_find s (blankVolume d name) r hn hr h
  simp [getVolumeInfo, hload]

/-- Projection of a GetVolumeInfo result onto the reported mount point. -/
def infoMountPoint (r : OpRes (List (String × String))) : Option String :=
  match r.result with
  | .error _ => none
  | .ok info => info.lookup ("MountPoint")

/-- Fixture: a running manager configuration. -/
def devFix : Device :=
  { Root := "/cfg"
    Registries := "quobyte-1:7861"
    User := "root"
    Group := "nfsnobody"
    VolumeConfig := "BASE"
    DefaultVolumeSize := 0 }

/-- Fixture: a mounted volume record. -/
def volA : QuobyteVolume :=
  { Name := "a"
    ID := "id-a"
    MountPoint := "/mnt/a"
    configPath := "/cfg"
    User := "root"
    Group := "nfsnobody"
    Device := "a"
    Config := "BASE" }

/-- Fixture: an unmounted volume record. -/
def volB : QuobyteVolume :=
  { Name := "b"
    ID := "id-b"
    MountPoint := ""
    configPath := "/cfg"
    User := "root"
    Group := "nfsnobody"
    Device := "b"
    Config := "BASE" }

/-- Fixture: a store holding one mounted and one unmounted volume. -/
def storeFix : Store := [("a", some volA), ("b", some volB)]

/-- Fixture: a remote client that always succeeds. -/
def remoteFix : RemoteClient :=
  { createVolume := fun _ _ _ _ => .ok ("abc-123")
    deleteVolume := fun _ => .ok () }

/-- Fixture: a remote client that always fails. -/
def remoteFailFix : RemoteClient :=
  { createVolume := fun _ _ _ _ => .error ("remote down")
    deleteVolume := fun _ => .error ("remote down") }

/-- Fixture: a mount executor that always succeeds. -/
def meFix : MountExec :=
  { volumeMount := fun v _ => .ok ("/mnt/" ++ v.Name)
    volumeUmount := fun _ => .ok () }

/-- Fixture: a mount executor that always fails. -/
def meFailFix : MountExec :=
  { volumeMount := fun _ _ => .error ("mount failed")
    volumeUmount := fun _ => .error ("umount failed") }

lemma createVolume_exists_error_eq (d : Device) (remote : RemoteClient) (s : Store)
    (req : Request) (e : String)
    (hex : objectExists s (blankVolume d req.Name) = .error e) :
    createVolume d remote s req = ⟨.error e, s, [Event.lockAcquire, Event.lockRelease]⟩ := by
  simp [createVolume, hex]

/-- C1: Init at a fresh root with valid bootstrap options (API endpoint
present, registry address accepted by validation) succeeds and builds
the defaulted manager configuration, but never persists it: the disk
still holds no configuration record after startup, so a subsequent
startup with empty bootstrap options fails with a missing-parameter
error instead of loading the configuration from the store.  This
evaluates the code at the failing input of the claim. -/
theorem init_builds_but_never_persists_config :
    (init ("/r")
        ([(QUOBYTE_API_URL, "http://quobyte-api:8080"),
          (QUOBYTE_REGISTRIES, "quobyte-1:7861")])
        (fun _ => true) meFix ⟨none, []⟩).result
      = .ok { Root := "/r", Registries := "quobyte-1:7861", User := "root",
              Group := "nfsnobody", VolumeConfig := "BASE", DefaultVolumeSize := 0 }
    ∧ (init ("/r")
        ([(QUOBYTE_API_URL, "http://quobyte-api:8080"),
          (QUOBYTE_REGISTRIES, "quobyte-1:7861")])
        (fun _ => true) meFix ⟨none, []⟩).disk.config = none
    ∧ okB (init ("/r") ([]) (fun _ => true) meFix
        ((init ("/r")
            ([(QUOBYTE_API_URL, "http://quobyte-api:8080"),
              (QUOBYTE_REGISTRIES, "quobyte-1:7861")])
            (fun _ => true) meFix ⟨none, []⟩).disk)).result = false := by
  decide

/-- C2: CreateVolume on an existing volume name fails with the
already-exists error, never invokes the Remote Volume Client, and leaves
the store unchanged; consequently calling CreateVolume twice in a row
yields the already-exists error on the second call with the store
unchanged from after the first successful call. -/
theorem createVolume_already_exists
    (d : Device) (remote remote2 : RemoteClient) (s : Store) (req : Request) :
    (objectExists s (blankVolume d req.Name) = .ok true →
      (createVolume d remote s req).result
          = .error ("volume " ++ req.Name ++ " already exists")
      ∧ (createVolume d remote s req).store = s
      ∧ ∀ n, Event.remoteCreate n ∉ (createVolume d remote s req).trace)
    ∧ ((createVolume d remote s req).result = .ok () →
      (createVolume d remote2 (createVolume d remote s req).store req).result
          = .error ("volume " ++ req.Name ++ " already exists")
      ∧ (createVolume d remote2 (createVolume d remote s req).store req).store
          = (createVolume d remote s req).store) := by
  constructor
  · intro hex
    rw [createVolume_exists_eq d remote s req hex]
    refine ⟨rfl, rfl, ?_⟩
    intro n hn
    simp at hn
  · intro hok
    rcases hex : objectExists s (blankVolume d req.Name) with e | b
    · rw [createVolume_exists_error_eq d remote s req e hex] at hok
      simp at hok
    · cases b with
      | true =>
        rw [createVolume_exists_eq d remote s req hex] at hok
        simp at hok
      | false =>
        rcases hrc : remote.createVolume req.Name d.User d.Group d.VolumeConfig with e | uuid
        · rw [createVolume_remote_error_eq d remote s req e hex hrc] at hok
          simp at hok
        · have heq := createVolume_ok_eq d remote s req uuid hex hrc
          rw [heq]
          obtain ⟨h1, h2⟩ := objectExists_ok_names s (blankVolume d req.Name) false hex
          have hex2 : objectExists (storeSave s req.Name (createdRecord d req.Name uuid))
              (blankVolume d req.Name) = .ok true := by
            have hparts := objectExists_of_parts
              (storeSave s req.Name (createdRecord d req.Name uuid))
              (blankVolume d req.Name) h1 h2
            rw [hparts]
            simp [blankVolume, storeFind_storeSave_self]
          rw [createVolume_exists_eq d remote2
            (storeSave s req.Name (createdRecord d req.Name uuid)) req hex2]
          exact ⟨rfl, rfl⟩

/-- C2 witness: on the fixture store, CreateVolume of the existing name
a leaves the store unchanged, and after a successful CreateVolume of the
fresh name c, a second CreateVolume of c leaves the store unchanged. -/
theorem createVolume_already_exists_witness :
    (createVolume devFix remoteFix storeFix ⟨"a", []⟩).store = storeFix
    ∧ (createVolume devFix remoteFix
        ((createVolume devFix remoteFix storeFix ⟨"c", []⟩).store) ⟨"c", []⟩).store
      = (createVolume devFix remoteFix storeFix ⟨"c", []⟩).store := by
  constructor
  · exact ((createVolume_already_exists devFix remoteFix remoteFix storeFix
      ⟨"a", []⟩).1 (by decide)).2.1
  · exact ((createVolume_already_exists devFix remoteFix remoteFix storeFix
      ⟨"c", []⟩).2 (by decide)).2

/-- C3: CreateVolume on an absent name: a remote provisioning failure is
returned unchanged and the store is exactly as before the call; on
remote success a record is persisted under the name whose mount point is
empty, whose remote identifier is the returned id and whose device
identifier is the volume name. -/
theorem createVolume_remote_propagation
    (d : Device) (remote : RemoteClient) (s : Store) (req : Request)
    (hnx : objectExists s (blankVolume d req.Name) = .ok false) :
    (∀ e, remote.createVolume req.Name d.User d.Group d.VolumeConfig = .error e →
      (createVolume d remote s req).result = .error e
      ∧ (createVolume d remote s req).store = s)
    ∧ (∀ uuid, remote.createVolume req.Name d.User d.Group d.VolumeConfig = .ok uuid →
      (createVolume d remote s req).result = .ok ()
      ∧ storeFind (createVolume d remote s req).store req.Name
          = some (some (createdRecord d req.Name uuid))
      ∧ (createdRecord d req.Name uuid).MountPoint = ""
      ∧ (createdRecord d req.Name uuid).ID = uuid
      ∧ (createdRecord d req.Name uuid).Device = req.Name) := by
  constructor
  · intro e hrc
    rw [createVolume_remote_error_eq d remote s req e hnx hrc]
    exact ⟨rfl, rfl⟩
  · intro uuid hrc
    rw [createVolume_ok_eq d remote s req uuid hnx hrc]
    exact ⟨rfl, storeFind_storeSave_self s req.Name (createdRecord d req.Name uuid),
      rfl, rfl, rfl⟩

/-- C3 witness: on the fixture store, a failing remote client leaves the
store unchanged for the fresh name c, whereas a succeeding remote client
persists the expected record under c. -/
theorem createVolume_remote_propagation_witness :
    (createVolume devFix remoteFailFix storeFix ⟨"c", []⟩).store = storeFix
    ∧ storeFind (createVolume devFix remoteFix storeFix ⟨"c", []⟩).store ("c")
        = some (some (createdRecord devFix ("c") ("abc-123"))) := by
  constructor
  · exact ((createVolume_remote_propagation devFix remoteFailFix storeFix ⟨"c", []⟩
      (by decide)).1 ("remote down") (by decide)).2
  · exact ((createVolume_remote_propagation devFix remoteFix storeFix ⟨"c", []⟩
      (by decide)).2 ("abc-123") (by decide)).2.1

/-- C4: DeleteVolume of a volume whose record carries a non-empty mount
point fails with the still-mounted error, never invokes the remote
deprovisioning capability, and leaves the store unchanged. -/
theorem deleteVolume_still_mounted
    (d : Device) (remote : RemoteClient) (s : Store) (req : Request)
    (vol : QuobyteVolume)
    (hload : objectLoad s (blankVolume d req.Name) = .ok vol)
    (hm : vol.MountPoint ≠ "") :
    (deleteVolume d remote s req).result
      = .error ("Cannot delete volume " ++ req.Name ++ ". It is still mounted")
    ∧ (deleteVolume d remote s req).store = s
    ∧ ∀ i, Event.remoteDelete i ∉ (deleteVolume d remote s req).trace := by
  rw [deleteVolume_mounted_eq d remote s req vol hload hm]
  refine ⟨rfl, rfl, ?_⟩
  intro i hi
  simp at hi

/-- C4 witness: deleting the mounted fixture volume a leaves the store
unchanged and emits no remote deprovisioning call. -/
theorem deleteVolume_still_mounted_witness :
    (deleteVolume devFix remoteFix storeFix ⟨"a", []⟩).store = storeFix
    ∧ Event.remoteDelete ("id-a") ∉ (deleteVolume devFix remoteFix storeFix ⟨"a", []⟩).trace := by
  have h := deleteVolume_still_mounted devFix remoteFix storeFix ⟨"a", []⟩ volA
    (by decide) (by decide)
  exact ⟨h.2.1, h.2.2 ("id-a")⟩

/-- C5: DeleteVolume of an unmounted existing volume with the
reference-only option parsing to true never invokes the remote
deprovisioning capability, succeeds, and removes the record from the
store. -/
theorem deleteVolume_reference_only
    (d : Device) (remote : RemoteClient) (s : Store) (req : Request)
    (vol : QuobyteVolume)
    (hload : objectLoad s (blankVolume d req.Name) = .ok vol)
    (hum : vol.MountPoint = "")
    (href : goParseBool (getOpt req.Options OPT_REFERENCE_ONLY) = .ok true)
    (hname : vol.Name = req.Name)
    (hnd : (listConfigIDs s).Nodup) :
    (deleteVolume d remote s req).result = .ok ()
    ∧ (∀ i, Event.remoteDelete i ∉ (deleteVolume d remote s req).trace)
    ∧ storeFind (deleteVolume d remote s req).store req.Name = none := by
  obtain ⟨r, hf, hv, h1, h2⟩ := objectLoad_ok_spec s (blankVolume d req.Name) vol hload
  have hn : vol.Name ≠ "" := by
    rw [hname]
    exact h1
  have hp : vol.configPath ≠ "" := by
    rw [hv]
    exact h2
  have href' : (goParseBool (getOpt req.Options OPT_REFERENCE_ONLY)).toOption.getD false
      = true := by
    rw [href]
    rfl
  rw [deleteVolume_refonly_eq d remote s req vol hload hum href' hn hp]
  refine ⟨rfl, ?_, ?_⟩
  · intro i hi
    simp at hi
  · rw [hname]
    exact storeFind_storeDelete_self s req.Name hnd

/-- C5 witness: a reference-only delete of the unmounted fixture volume
b succeeds and removes the record even against a remote client whose
deprovisioning always fails, showing it was never invoked. -/
theorem deleteVolume_reference_only_witness :
    (deleteVolume devFix remoteFailFix storeFix
        ⟨"b", [(OPT_REFERENCE_ONLY, "true")]⟩).result = .ok ()
    ∧ storeFind (deleteVolume devFix remoteFailFix storeFix
        ⟨"b", [(OPT_REFERENCE_ONLY, "true")]⟩).store ("b") = none := by
  have h := deleteVolume_reference_only devFix remoteFailFix storeFix
    ⟨"b", [(OPT_REFERENCE_ONLY, "true")]⟩ volB
    (by decide) (by decide) (by decide) (by decide) (by decide)
  exact ⟨h.1, h.2.2⟩

/-- C7: MountVolume of an existing volume whose mount executor call
fails returns that error and does not update the persisted record: the
store is exactly as before the call. -/
theorem mountVolume_failure_frame
    (d : Device) (me : MountExec) (s : Store) (req : Request)
    (vol : QuobyteVolume) (e : String)
    (hload : objectLoad s (blankVolume d req.Name) = .ok vol)
    (hm : me.volumeMount vol (getOpt req.Options OPT_MOUNT_POINT) = .error e) :
    (mountVolume d me s req).result = .error e
    ∧ (mountVolume d me s req).store = s := by
  rw [mountVolume_mount_error_eq d me s req vol e hload hm]
  exact ⟨rfl, rfl⟩

/-- C7 witness: mounting the fixture volume b with a failing mount
executor returns the mount error and leaves the store unchanged. -/
theorem mountVolume_failure_frame_witness :
    (mountVolume devFix meFailFix storeFix ⟨"b", []⟩).result = .error ("mount failed")
    ∧ (mountVolume devFix meFailFix storeFix ⟨"b", []⟩).store = storeFix := by
  exact mountVolume_failure_frame devFix meFailFix storeFix ⟨"b", []⟩ volB
    ("mount failed") (by decide) (by decide)

/-- C10: when the reference-only option value is not a string accepted
by strconv.ParseBool, DeleteVolume silently treats the flag as false
(the parse error is discarded) and therefore invokes the remote
deprovisioning capability on an unmounted existing volume. -/
theorem deleteVolume_malformed_reference_only
    (d : Device) (remote : RemoteClient) (s : Store) (req : Request)
    (vol : QuobyteVolume)
    (hbad : okB (goParseBool (getOpt req.Options OPT_REFERENCE_ONLY)) = false)
    (hload : objectLoad s (blankVolume d req.Name) = .ok vol)
    (hum : vol.MountPoint = "") :
    Event.remoteDelete vol.ID ∈ (deleteVolume d remote s req).trace := by
  have href : (goParseBool (getOpt req.Options OPT_REFERENCE_ONLY)).toOption.getD false
      = false := by
    cases hg : goParseBool (getOpt req.Options OPT_REFERENCE_ONLY) with
    | error e => simp [Except.toOption]
    | ok b =>
      rw [hg] at hbad
      simp [okB] at hbad
  rw [deleteVolume_notref_trace d remote s req vol hload hum href]
  simp

/-- C10 witness: for the unparseable option value yes, and likewise for
the empty value of an absent option, deleting the unmounted fixture
volume b emits the remote deprovisioning call. -/
theorem deleteVolume_malformed_reference_only_witness :
    Event.remoteDelete ("id-b") ∈
      (deleteVolume devFix remoteFix storeFix
        ⟨"b", [(OPT_REFERENCE_ONLY, "yes")]⟩).trace
    ∧ Event.remoteDelete ("id-b") ∈
      (deleteVolume devFix remoteFix storeFix ⟨"b", []⟩).trace := by
  constructor
  · exact deleteVolume_malformed_reference_only devFix remoteFix storeFix
      ⟨"b", [(OPT_REFERENCE_ONLY, "yes")]⟩ volB (by decide) (by decide) (by decide)
  · exact deleteVolume_malformed_reference_only devFix remoteFix storeFix
      ⟨"b", []⟩ volB (by decide) (by decide) (by decide)

lemma infoMountPoint_of_record (d : Device) (s : Store) (name : String)
    (r : QuobyteVolume)
    (hn : name ≠ "") (hr : d.Root ≠ "")
    (h : storeFind s name = some (some r)) :
    infoMountPoint (getVolumeInfo d s name) = some r.MountPoint := by
  rw [getVolumeInfo_of_record d s name r hn hr h]
  simp [infoMountPoint, List.lookup]

lemma createVolume_ok_cases (d : Device) (remote : RemoteClient) (s : Store)
    (req : Request)
    (hok : (createVolume d remote s req).result = .ok ()) :
    ∃ uuid, objectExists s (blankVolume d req.Name) = .ok false
      ∧ remote.createVolume req.Name d.User d.Group d.VolumeConfig = .ok uuid
      ∧ createVolume d remote s req
          = ⟨.ok (), storeSave s req.Name (createdRecord d req.Name uuid),
             [Event.lockAcquire, Event.remoteCreate req.Name, Event.lockRelease]⟩ := by
  rcases hex : objectExists s (blankVolume d req.Name) with e | b
  · rw [createVolume_exists_error_eq d remote s req e hex] at hok
    simp at hok
  · cases b with
    | true =>
      rw [createVolume_exists_eq d remote s req hex] at hok
      simp at hok
    | false =>
      rcases hrc : remote.createVolume req.Name d.User d.Group d.VolumeConfig with e | uuid
      · rw [createVolume_remote_error_eq d remote s req e hex hrc] at hok
        simp at hok
      · exact ⟨uuid, rfl, rfl, createVolume_ok_eq d remote s req uuid hex hrc⟩

lemma mountVolume_ok_cases (d : Device) (me : MountExec) (s : Store) (req : Request)
    (p : String)
    (hok : (mountVolume d me s req).result = .ok p) :
    ∃ vol, objectLoad s (blankVolume d req.Name) = .ok vol
      ∧ me.volumeMount vol (getOpt req.Options OPT_MOUNT_POINT) = .ok p
      ∧ vol.Name ≠ "" := by
  rcases hload : objectLoad s (blankVolume d req.Name) with e | vol
  · rw [mountVolume_load_error_eq d me s req e hload] at hok
    simp at hok
  · rcases hm : me.volumeMount vol (getOpt req.Options OPT_MOUNT_POINT) with e | mp
    · rw [mountVolume_mount_error_eq d me s req vol e hload hm] at hok
      simp at hok
    · rcases hsv : objectSave s { vol with MountPoint := mp } with e | s2
      · have hmv : mountVolume d me s req
            = ⟨.error e, s,
               [Event.lockAcquire,
                Event.mountExec vol (getOpt req.Options OPT_MOUNT_POINT),
                Event.lockRelease]⟩ := by
          simp [mountVolume, hload, hm, hsv]
        rw [hmv] at hok
        simp at hok
      · have hmv : mountVolume d me s req
            = ⟨.ok mp, s2,
               [Event.lockAcquire,
                Event.mountExec vol (getOpt req.Options OPT_MOUNT_POINT),
                Event.lockRelease]⟩ := by
          simp [mountVolume, hload, hm, hsv]
        rw [hmv] at hok
        have hmp : mp = p := by simpa using hok
        subst hmp
        have hn : vol.Name ≠ "" := by
          unfold objectSave at hsv
          cases hc : ({ vol with MountPoint := mp } : QuobyteVolume).configFile with
          | error e2 =>
            rw [hc] at hsv
            cases hsv
          | ok _ =>
            unfold QuobyteVolume.configFile at hc
            by_cases hnn : vol.Name = ""
            · simp [hnn] at hc
            · exact hnn
        exact ⟨vol, rfl, hm, hn⟩

lemma umountVolume_unmount_error_eq (d : Device) (me : MountExec) (s : Store)
    (req : Request) (vol : QuobyteVolume) (e : String)
    (hload : objectLoad s (blankVolume d req.Name) = .ok vol)
    (hu : me.volumeUmount vol = .error e) :
    umountVolume d me s req =
      ⟨.error e, s, [Event.lockAcquire, Event.unmountExec vol, Event.lockRelease]⟩ := by
  simp [umountVolume, hload, hu]

lemma umountVolume_ok_cases (d : Device) (me : MountExec) (s : Store) (req : Request)
    (hok : (umountVolume d me s req).result = .ok ()) :
    ∃ vol, objectLoad s (blankVolume d req.Name) = .ok vol
      ∧ me.volumeUmount vol = .ok ()
      ∧ vol.Name ≠ "" := by
  rcases hload : objectLoad s (blankVolume d req.Name) with e | vol
  · rw [umountVolume_load_error_eq d me s req e hload] at hok
    simp at hok
  · rcases hu : me.volumeUmount vol with e | u
    · rw [umountVolume_unmount_error_eq d me s req vol e hload hu] at hok
      simp at hok
    · rcases hsv : objectSave s { vol with MountPoint := "" } with e | s2
      · have hmv : umountVolume d me s req
            = ⟨.error e, s,
               [Event.lockAcquire, Event.unmountExec vol, Event.lockRelease]⟩ := by
          simp [umountVolume, hload, hu, hsv]
        rw [hmv] at hok
        simp at hok
      · have hn : vol.Name ≠ "" := by
          unfold objectSave at hsv
          cases hc : ({ vol with MountPoint := "" } : QuobyteVolume).configFile with
          | error e2 =>
            rw [hc] at hsv
            cases hsv
          | ok _ =>
            unfold QuobyteVolume.configFile at hc
            by_cases hnn : vol.Name = ""
            · simp [hnn] at hc
            · exact hnn
        exact ⟨vol, rfl, hu, hn⟩

/-- C8: lifecycle round trip.  After a successful CreateVolume of a name
n the store reports an empty mount point for n through GetVolumeInfo;
after a successful MountVolume of n returning mount point p it reports
exactly p; after a successful UnmountVolume of n it reports the empty
mount point again. -/
theorem lifecycle_round_trip
    (d : Device) (remote : RemoteClient) (me : MountExec)
    (s s1 s2 s3 : Store) (n p : String)
    (h1r : (createVolume d remote s ⟨n, []⟩).result = .ok ())
    (h1s : (createVolume d remote s ⟨n, []⟩).store = s1)
    (h2r : (mountVolume d me s1 ⟨n, []⟩).result = .ok p)
    (h2s : (mountVolume d me s1 ⟨n, []⟩).store = s2)
    (h3r : (umountVolume d me s2 ⟨n, []⟩).result = .ok ())
    (h3s : (umountVolume d me s2 ⟨n, []⟩).store = s3) :
    infoMountPoint (getVolumeInfo d s1 n) = some ""
    ∧ infoMountPoint (getVolumeInfo d s2 n) = some p
    ∧ infoMountPoint (getVolumeInfo d s3 n) = some "" := by
  obtain ⟨uuid, hex, hrc, heq1⟩ := createVolume_ok_cases d remote s ⟨n, []⟩ h1r
  obtain ⟨hn, hr⟩ := objectExists_ok_names s (blankVolume d n) false (by exact hex)
  have hn' : n ≠ "" := hn
  have hr' : d.Root ≠ "" := hr
  rw [heq1] at h1s
  have h1s' : storeSave s n (createdRecord d n uuid) = s1 := h1s
  have find1 : storeFind s1 n = some (some (createdRecord d n uuid)) := by
    rw [← h1s']
    exact storeFind_storeSave_self s n (createdRecord d n uuid)
  have info1 : infoMountPoint (getVolumeInfo d s1 n) = some "" := by
    rw [infoMountPoint_of_record d s1 n (createdRecord d n uuid) hn' hr' find1]
    rfl
  obtain ⟨vol, hload2, hm2, hvn2⟩ := mountVolume_ok_cases d me s1 ⟨n, []⟩ p h2r
  have heq2 := mountVolume_ok_eq d me s1 ⟨n, []⟩ vol p hload2 hm2 hvn2
  obtain ⟨r2, hf2, hv2, hbn2, hbp2⟩ := objectLoad_ok_spec s1 (blankVolume d n) vol
    (by exact hload2)
  simp only [blankVolume] at hf2 hv2
  have hr2 : r2 = createdRecord d n uuid := by
    rw [find1] at hf2
    simpa using hf2.symm
  have hvoln : vol.Name = n := by
    rw [hv2, hr2]
    rfl
  rw [heq2] at h2s
  have h2s' : storeSave s1 vol.Name { vol with MountPoint := p } = s2 := h2s
  have find2 : storeFind s2 n = some (some ({ vol with MountPoint := p })) := by
    rw [← h2s', ← hvoln]
    exact storeFind_storeSave_self s1 vol.Name { vol with MountPoint := p }
  have info2 : infoMountPoint (getVolumeInfo d s2 n) = some p := by
    rw [infoMountPoint_of_record d s2 n ({ vol with MountPoint := p }) hn' hr' find2]
  obtain ⟨vol3, hload3, hu3, hvn3⟩ := umountVolume_ok_cases d me s2 ⟨n, []⟩ h3r
  have heq3 := umountVolume_ok_eq d me s2 ⟨n, []⟩ vol3 hload3 hu3 hvn3
  obtain ⟨r3, hf3, hv3, hbn3, hbp3⟩ := objectLoad_ok_spec s2 (blankVolume d n) vol3
    (by exact hload3)
  simp only [blankVolume] at hf3 hv3
  have hr3 : r3 = { vol with MountPoint := p } := by
    rw [find2] at hf3
    simpa using hf3.symm
  have hvoln3 : vol3.Name = n := by
    rw [hv3, hr3]
    exact hvoln
  rw [heq3] at h3s
  have h3s' : storeSave s2 vol3.Name { vol3 with MountPoint := "" } = s3 := h3s
  have find3 : storeFind s3 n = some (some ({ vol3 with MountPoint := "" })) := by
    rw [← h3s', ← hvoln3]
    exact storeFind_storeSave_self s2 vol3.Name { vol3 with MountPoint := "" }
  have info3 : infoMountPoint (getVolumeInfo d s3 n) = some "" := by
    rw [infoMountPoint_of_record d s3 n ({ vol3 with MountPoint := "" }) hn' hr' find3]
  exact ⟨info1, info2, info3⟩

/-- Fixture: the store after creating vol1 in an empty store. -/
def rtS1 : Store := [(("vol1"), some (createdRecord devFix ("vol1") ("abc-123")))]

/-- Fixture: the vol1 record once mounted at /mnt/vol1. -/
def rtRec2 : QuobyteVolume :=
  { createdRecord devFix ("vol1") ("abc-123") with MountPoint := "/mnt/vol1" }

/-- Fixture: the store after mounting vol1. -/
def rtS2 : Store := [(("vol1"), some rtRec2)]

/-- C8 witness: the concrete create, mount, unmount sequence for vol1 on
an empty store reports mount points empty, /mnt/vol1, empty. -/
theorem lifecycle_round_trip_witness :
    infoMountPoint (getVolumeInfo devFix rtS1 ("vol1")) = some ""
    ∧ infoMountPoint (getVolumeInfo devFix rtS2 ("vol1")) = some ("/mnt/vol1")
    ∧ infoMountPoint (getVolumeInfo devFix rtS1 ("vol1")) = some "" :=
  lifecycle_round_trip devFix remoteFix meFix [] rtS1 rtS2 rtS1 ("vol1") ("/mnt/vol1")
    (by decide) (by decide) (by decide) (by decide) (by decide) (by decide)

/-- Whether an event touches the manager-wide lock. -/
def isLockEvent : Event → Bool
  | .lockAcquire => true
  | .lockRelease => true
  | _ => false

/-- A trace that acquires the manager-wide lock first, releases it last,
and touches the lock nowhere in between: the operation holds the lock
for its full duration. -/
def HoldsLockWhole (tr : List Event) : Prop :=
  ∃ mid, tr = Event.lockAcquire :: mid ++ [Event.lockRelease]
    ∧ ∀ e ∈ mid, isLockEvent e = false

/-- The trace made of n acquire-release pairs. -/
def lockPairs : Nat → List Event
  | 0 => []
  | n + 1 => Event.lockAcquire :: Event.lockRelease :: lockPairs n

lemma holdsLockWhole_pair : HoldsLockWhole [Event.lockAcquire, Event.lockRelease] := by
  refine ⟨[], rfl, ?_⟩
  intro e he
  cases he

lemma holdsLockWhole_one (e : Event) (h : isLockEvent e = false) :
    HoldsLockWhole [Event.lockAcquire, e, Event.lockRelease] := by
  refine ⟨[e], rfl, ?_⟩
  intro x hx
  rw [List.mem_singleton] at hx
  rw [hx]
  exact h

lemma getVolumeInfo_trace (d : Device) (s : Store) (n : String) :
    (getVolumeInfo d s n).trace = [Event.lockAcquire, Event.lockRelease] := by
  unfold getVolumeInfo
  split
  · rfl
  · rfl

lemma mountPointOp_trace (d : Device) (s : Store) (req : Request) :
    (mountPointOp d s req).trace = [] := by
  unfold mountPointOp
  split
  · rfl
  · rfl

lemma createVolume_holds_lock (d : Device) (remote : RemoteClient) (s : Store)
    (req : Request) : HoldsLockWhole (createVolume d remote s req).trace := by
  simp only [createVolume]
  split
  · exact holdsLockWhole_pair
  · exact holdsLockWhole_pair
  · split
    · exact holdsLockWhole_one _ rfl
    · split
      · exact holdsLockWhole_one _ rfl
      · exact holdsLockWhole_one _ rfl

lemma deleteVolume_holds_lock (d : Device) (remote : RemoteClient) (s : Store)
    (req : Request) : HoldsLockWhole (deleteVolume d remote s req).trace := by
  simp only [deleteVolume]
  split
  · exact holdsLockWhole_pair
  · split
    · exact holdsLockWhole_pair
    · split
      · split
        · exact holdsLockWhole_pair
        · exact holdsLockWhole_pair
      · split
        · exact holdsLockWhole_one _ rfl
        · split
          · exact holdsLockWhole_one _ rfl
          · exact holdsLockWhole_one _ rfl

lemma mountVolume_holds_lock (d : Device) (me : MountExec) (s : Store)
    (req : Request) : HoldsLockWhole (mountVolume d me s req).trace := by
  simp only [mountVolume]
  split
  · exact holdsLockWhole_pair
  · split
    · exact holdsLockWhole_one _ rfl
    · split
      · exact holdsLockWhole_one _ rfl
      · exact holdsLockWhole_one _ rfl

lemma umountVolume_holds_lock (d : Device) (me : MountExec) (s : Store)
    (req : Request) : HoldsLockWhole (umountVolume d me s req).trace := by
  simp only [umountVolume]
  split
  · exact holdsLockWhole_pair
  · split
    · exact holdsLockWhole_one _ rfl
    · split
      · exact holdsLockWhole_one _ rfl
      · exact holdsLockWhole_one _ rfl

lemma listVolumeLoop_trace_lock (d : Device) (s : Store) :
    ∀ (ids : List String) (e : Event),
      e ∈ (listVolumeLoop d s ids).trace → isLockEvent e = true
  | [], e, he => by simp [listVolumeLoop] at he
  | id :: rest, e, he => by
    have hgt := getVolumeInfo_trace d s id
    rcases hr : (getVolumeInfo d s id).result with er | info
    · have htr : (listVolumeLoop d s (id :: rest)).trace = (getVolumeInfo d s id).trace := by
        simp [listVolumeLoop, hr]
      rw [htr, hgt] at he
      simp at he
      rcases he with rfl | rfl
      · rfl
      · rfl
    · rcases hrr : (listVolumeLoop d s rest).result with er | tailInfo
      · have htr : (listVolumeLoop d s (id :: rest)).trace
            = (getVolumeInfo d s id).trace ++ (listVolumeLoop d s rest).trace := by
          simp [listVolumeLoop, hr, hrr]
        rw [htr] at he
        rcases List.mem_append.mp he with he | he
        · rw [hgt] at he
          simp at he
          rcases he with rfl | rfl
          · rfl
          · rfl
        · exact listVolumeLoop_trace_lock d s rest e he
      · have htr : (listVolumeLoop d s (id :: rest)).trace
            = (getVolumeInfo d s id).trace ++ (listVolumeLoop d s rest).trace := by
          simp [listVolumeLoop, hr, hrr]
        rw [htr] at he
        rcases List.mem_append.mp he with he | he
        · rw [hgt] at he
          simp at he
          rcases he with rfl | rfl
          · rfl
          · rfl
        · exact listVolumeLoop_trace_lock d s rest e he

lemma listVolumeLoop_trace_ok (d : Device) (s : Store) :
    ∀ (ids : List String), okB (listVolumeLoop d s ids).result = true →
      (listVolumeLoop d s ids).trace = lockPairs ids.length
  | [], _ => by simp [listVolumeLoop, lockPairs]
  | id :: rest, hok => by
    rcases hr : (getVolumeInfo d s id).result with er | info
    · have hres : (listVolumeLoop d s (id :: rest)).result = .error er := by
        simp [listVolumeLoop, hr]
      rw [hres] at hok
      simp [okB] at hok
    · rcases hrr : (listVolumeLoop d s rest).result with er | tailInfo
      · have hres : (listVolumeLoop d s (id :: rest)).result = .error er := by
          simp [listVolumeLoop, hr, hrr]
        rw [hres] at hok
        simp [okB] at hok
      · have ih := listVolumeLoop_trace_ok d s rest (by simp [okB, hrr])
        have htr : (listVolumeLoop d s (id :: rest)).trace
            = (getVolumeInfo d s id).trace ++ (listVolumeLoop d s rest).trace := by
          simp [listVolumeLoop, hr, hrr]
        rw [htr, getVolumeInfo_trace, ih]
        simp [lockPairs]

/-- C9 counterexample: GetVolumeInfo does acquire the manager-wide
exclusive lock: at the fixture inputs its trace contains the lock
acquisition event, refuting the claim that the read-only GetVolumeInfo
does not take the lock. -/
theorem getVolumeInfo_acquires_lock_cex :
    Event.lockAcquire ∈ (getVolumeInfo devFix storeFix ("a")).trace := by
  decide

/-- C9 amended: MountPoint takes no lock; GetVolumeInfo acquires and
releases the exclusive lock around its work; ListVolumes takes no lock
of its own but through GetVolumeInfo produces exactly one
acquire-release pair per listed volume when it succeeds (and only lock
events in any case); every mutating operation (create, delete, mount,
unmount) holds the lock for its full duration. -/
theorem lock_discipline
    (d : Device) (remote : RemoteClient) (me : MountExec) (s : Store)
    (req : Request) (n : String) :
    (mountPointOp d s req).trace = []
    ∧ (getVolumeInfo d s n).trace = [Event.lockAcquire, Event.lockRelease]
    ∧ HoldsLockWhole (createVolume d remote s req).trace
    ∧ HoldsLockWhole (deleteVolume d remote s req).trace
    ∧ HoldsLockWhole (mountVolume d me s req).trace
    ∧ HoldsLockWhole (umountVolume d me s req).trace
    ∧ (∀ e ∈ (listVolume d s).trace, isLockEvent e = true)
    ∧ (okB (listVolume d s).result = true →
        (listVolume d s).trace = lockPairs (listConfigIDs s).length) := by
  refine ⟨mountPointOp_trace d s req, getVolumeInfo_trace d s n,
    createVolume_holds_lock d remote s req, deleteVolume_holds_lock d remote s req,
    mountVolume_holds_lock d me s req, umountVolume_holds_lock d me s req, ?_, ?_⟩
  · intro e he
    exact listVolumeLoop_trace_lock d s (listConfigIDs s) e he
  · intro hok
    exact listVolumeLoop_trace_ok d s (listConfigIDs s) hok

/-- C9 amended witness: on the fixture store, MountPoint emits no
events and a successful ListVolume emits exactly one acquire-release
pair per volume. -/
theorem lock_discipline_witness :
    (mountPointOp devFix storeFix ⟨"a", []⟩).trace = []
    ∧ (listVolume devFix storeFix).trace = lockPairs (listConfigIDs storeFix).length := by
  have h := lock_discipline devFix remoteFix meFix storeFix ⟨"a", []⟩ ("a")
  exact ⟨h.1, h.2.2.2.2.2.2.2 (by decide)⟩

/-- Whether an event is a mount executor call for the named volume with
an empty mount point hint (the shape of every recovery mount). -/
def isMountCallFor (nm : String) : Event → Bool
  | .mountExec v hint => if v.Name = nm ∧ hint = "" then true else false
  | _ => false

/-- Number of mount executor calls for a named volume with empty options
in a trace. -/
def mountCallsFor (nm : String) (tr : List Event) : Nat :=
  (tr.filter (isMountCallFor nm)).length

lemma mountCallsFor_append (nm : String) (t1 t2 : List Event) :
    mountCallsFor nm (t1 ++ t2) = mountCallsFor nm t1 + mountCallsFor nm t2 := by
  simp [mountCallsFor, List.filter_append]

lemma mountCallsFor_triple (nm : String) (vol : QuobyteVolume) (hint : String) :
    mountCallsFor nm [Event.lockAcquire, Event.mountExec vol hint, Event.lockRelease]
      = if vol.Name = nm ∧ hint = "" then 1 else 0 := by
  by_cases h : vol.Name = nm ∧ hint = ""
  · simp [mountCallsFor, isMountCallFor, List.filter, h]
  · simp [mountCallsFor, isMountCallFor, List.filter, h]

lemma remountLoop_count (d : Device) (me : MountExec) :
    ∀ (names : List String) (s : Store) (tr : List Event),
      wfStore s = true → names.Nodup →
      okB (remountLoop d me names s tr).result = true →
      ∀ (nm : String) (v : QuobyteVolume), storeFind s nm = some (some v) →
        mountCallsFor nm (remountLoop d me names s tr).trace
          = mountCallsFor nm tr
            + (if nm ∈ names then (if v.MountPoint = "" then 0 else 1) else 0)
  | [], s, tr, hwf, hnd, hok, nm, v, hv => by
    simp [remountLoop]
  | id :: rest, s, tr, hwf, hnd, hok, nm, v, hv => by
    have hnd1 : id ∉ rest := (List.nodup_cons.mp hnd).1
    have hnd' : rest.Nodup := (List.nodup_cons.mp hnd).2
    rcases hload : objectLoad s (blankVolume d id) with e | vol
    · have hre : remountLoop d me (id :: rest) s tr = ⟨.error e, s, tr⟩ := by
        simp [remountLoop, hload]
      rw [hre] at hok
      simp [okB] at hok
    · obtain ⟨r0, hf0, hv0, hbn0, hbp0⟩ := objectLoad_ok_spec s (blankVolume d id) vol hload
      simp only [blankVolume] at hf0 hv0 hbn0 hbp0
      have hvolName : vol.Name = id := by
        rw [hv0]
        exact wf_name_of_find s id r0 hwf hf0
      by_cases hmp : vol.MountPoint = ""
      · have hre : remountLoop d me (id :: rest) s tr = remountLoop d me rest s tr := by
          simp [remountLoop, hload, hmp]
        rw [hre] at hok ⊢
        rw [remountLoop_count d me rest s tr hwf hnd' hok nm v hv]
        by_cases hnm : nm = id
        · subst hnm
          have hr0v : v = r0 := by
            rw [hv] at hf0
            simpa using hf0
          have hvmp : v.MountPoint = "" := by
            rw [hr0v]
            have hh : vol.MountPoint = r0.MountPoint := by rw [hv0]
            rw [← hh]
            exact hmp
          simp [hnd1, hvmp]
        · simp [List.mem_cons, hnm]
      · have hvn : vol.Name ≠ "" := by
          rw [hvolName]
          exact hbn0
        rcases hm : me.volumeMount vol ("") with e | p
        · have hmv := mountVolume_mount_error_eq d me s ⟨id, []⟩ vol e hload hm
          have hre : remountLoop d me (id :: rest) s tr
              = ⟨.error e, s, tr ++ (mountVolume d me s ⟨id, []⟩).trace⟩ := by
            simp [remountLoop, hload, hmp, hmv]
          rw [hre] at hok
          simp [okB] at hok
        · have hmv := mountVolume_ok_eq d me s ⟨id, []⟩ vol p hload hm hvn
          have hmv' : mountVolume d me s ⟨id, []⟩
              = ⟨.ok p, storeSave s vol.Name { vol with MountPoint := p },
                 [Event.lockAcquire, Event.mountExec vol "", Event.lockRelease]⟩ := hmv
          have hre : remountLoop d me (id :: rest) s tr
              = remountLoop d me rest (storeSave s vol.Name { vol with MountPoint := p })
                  (tr ++ [Event.lockAcquire, Event.mountExec vol "", Event.lockRelease]) := by
            simp [remountLoop, hload, hmp, hmv']
          rw [hre] at hok ⊢
          have hwf' : wfStore (storeSave s vol.Name { vol with MountPoint := p }) = true :=
            wfStore_storeSave s vol.Name ({ vol with MountPoint := p }) hwf rfl
          by_cases hnm : nm = id
          · have hr0v : v = r0 := by
              rw [hnm] at hv
              rw [hv] at hf0
              simpa using hf0
            have hkey : vol.Name = nm := by
              rw [hvolName, hnm]
            have hfind' : storeFind (storeSave s vol.Name ({ vol with MountPoint := p })) nm
                = some (some ({ vol with MountPoint := p })) := by
              rw [← hkey]
              exact storeFind_storeSave_self s vol.Name ({ vol with MountPoint := p })
            rw [remountLoop_count d me rest _ _ hwf' hnd' hok nm
              ({ vol with MountPoint := p }) hfind']
            rw [mountCallsFor_append, mountCallsFor_triple]
            have hC : (if vol.Name = nm ∧ ("" : String) = "" then 1 else 0) = 1 := by
              simp [hkey]
            rw [hC]
            have hvmp : v.MountPoint ≠ "" := by
              rw [hr0v]
              have hh : vol.MountPoint = r0.MountPoint := by rw [hv0]
              rw [← hh]
              exact hmp
            have hmem : nm ∈ id :: rest := by
              rw [hnm]
              exact List.mem_cons_self id rest
            have hmemr : nm ∉ rest := by
              rw [hnm]
              exact hnd1
            simp [hmem, hmemr, hvmp]
          · have hneq : nm ≠ vol.Name := by
              rw [hvolName]
              exact hnm
            have hfind' : storeFind (storeSave s vol.Name ({ vol with MountPoint := p })) nm
                = some (some v) := by
              rw [storeFind_storeSave_ne s vol.Name nm ({ vol with MountPoint := p }) hneq]
              exact hv
            rw [remountLoop_count d me rest _ _ hwf' hnd' hok nm v hfind']
            rw [mountCallsFor_append, mountCallsFor_triple]
            have hC : (if vol.Name = nm ∧ ("" : String) = "" then 1 else 0) = 0 := by
              simp [Ne.symm hneq]
            rw [hC]
            simp [List.mem_cons, hnm]

/-- C6: startup recovery mounts each mounted volume exactly once.  When
remountVolumes succeeds on a well-formed store with distinct keys, its
trace holds exactly one mount executor call with empty options for every
record with a non-empty mount point and none for a record with an empty
mount point; and whenever remountVolumes fails, Init on a disk holding
that configuration fails with the same error instead of returning a
working manager. -/
theorem recovery_mounts_each_mounted_volume_once
    (d : Device) (me : MountExec) (s : Store)
    (hwf : wfStore s = true)
    (hnd : (listConfigIDs s).Nodup) :
    (okB (remountVolumes d me s).result = true →
      ∀ nm v, storeFind s nm = some (some v) →
        mountCallsFor nm (remountVolumes d me s).trace
          = (if v.MountPoint = "" then 0 else 1))
    ∧ (∀ (cfg : List (String × String)) (validAddr : String → Bool) (e : String),
        d.Root ≠ "" →
        (remountVolumes d me s).result = .error e →
        (init d.Root cfg validAddr me ⟨some (some d), s⟩).result = .error e) := by
  constructor
  · intro hok nm v hv
    have hmem : nm ∈ listConfigIDs s := mem_listConfigIDs_of_find s nm (some v) hv
    have h := remountLoop_count d me (listConfigIDs s) s [] hwf hnd hok nm v hv
    calc mountCallsFor nm (remountVolumes d me s).trace
        = mountCallsFor nm (remountLoop d me (listConfigIDs s) s []).trace := rfl
      _ = mountCallsFor nm []
            + (if nm ∈ listConfigIDs s then (if v.MountPoint = "" then 0 else 1) else 0) := h
      _ = (if v.MountPoint = "" then 0 else 1) := by simp [mountCallsFor, hmem]
  · intro cfg validAddr e hroot herr
    have hstep : init d.Root cfg validAddr me ⟨some (some d), s⟩
        = initFinish d me ⟨some (some d), s⟩ := by
      simp [init, Device.configFile, hroot]
    rw [hstep]
    simp [initFinish, herr]

/-- C6 witness: on the fixture store (volume a mounted, volume b not),
recovery with a succeeding mount executor issues exactly one mount call
for a and none for b, and with a failing mount executor Init fails with
that mount error. -/
theorem recovery_mounts_each_mounted_volume_once_witness :
    mountCallsFor ("a") (remountVolumes devFix meFix storeFix).trace = 1
    ∧ mountCallsFor ("b") (remountVolumes devFix meFix storeFix).trace = 0
    ∧ (init ("/cfg") ([]) (fun _ => true) meFailFix ⟨some (some devFix), storeFix⟩).result
        = .error ("mount failed") := by
  have h := recovery_mounts_each_mounted_volume_once devFix meFix storeFix
    (by decide) (by decide)
  have h2 := recovery_mounts_each_mounted_volume_once devFix meFailFix storeFix
    (by decide) (by decide)
  refine ⟨?_, ?_, ?_⟩
  · have ha := h.1 (by decide) ("a") volA (by decide)
    rw [ha]
    decide
  · have hb := h.1 (by decide) ("b") volB (by decide)
    rw [hb]
    decide
  · exact h2.2 ([]) (fun _ => true) ("mount failed") (by decide) (by decide)

end Convoy
